import Mathlib

/-!
Shallow embedding of the per-connection websocket agent in `src/index.js`
(the file `src/unnamed/part_000` is a near-duplicate deployment variant:
same query routing and loop; it differs in a configurable SQL base URL,
a greeting frame on connect, and omits the `You: ...` echo progress frame).

External I/O is modelled by oracles: a list of completion-backend outcomes
consumed one per completion fetch, and a list of data-access-backend
outcomes consumed one per SQL fetch.  JSON values reaching the handler
(the inbound frame's `message` field, assistant `content`, the parsed
`query` argument) are modelled by a small JS-value type with JavaScript
truthiness.  `JSON.parse` outcomes (of the inbound frame text and of the
tool-call `arguments` string) are modelled as already-decided parse
results, since the raw texts never matter beyond parse success/failure.
-/

/-- Model of a JSON/JavaScript value as far as the handler inspects one. -/
inductive JsVal where
  | vNull
  | vBool (b : Bool)
  | vNum (n : Int)
  | vStr (s : String)
deriving DecidableEq, Repr

/-- JavaScript truthiness of a `JsVal` (`!v` in the source is `!truthy v`). -/
def JsVal.truthy : JsVal → Bool
  | .vNull => false
  | .vBool b => b
  | .vNum n => !(n == 0)
  | .vStr s => !(s == "")

/-- Truthiness of a possibly absent (`undefined`) field. -/
def jsTruthy : Option JsVal → Bool
  | none => false
  | some v => v.truthy

/-- String coercion used by JS template literals (only for values the
handler can actually interpolate). -/
def JsVal.asJsString : JsVal → String
  | .vNull => "null"
  | .vBool b => if b then "true" else "false"
  | .vNum n => toString n
  | .vStr s => s

/-- Outcome of `JSON.parse(toolCall.function.arguments)` plus the lookup of
its `query` field: either the parse throws, or it yields an object whose
`query` field is absent or some JS value. -/
inductive ToolArgs where
  | malformed
  | parsed (query : Option JsVal)
deriving DecidableEq, Repr

/-- The `function` member of a model-issued tool call. -/
structure ToolFunction where
  name : String
  arguments : ToolArgs
deriving DecidableEq, Repr

/-- A model-issued tool call (`id` is the backend's correlation id). -/
structure ToolCall where
  id : String
  function : ToolFunction
deriving DecidableEq, Repr

/-- A chat message as stored in the `conversations` history: role string,
optional content, tool calls (assistant turns), `tool_call_id` (tool turns).
Absent JSON fields are `none` / `[]`. -/
structure Message where
  role : String
  content : Option JsVal := none
  tool_calls : List ToolCall := []
  tool_call_id : Option String := none
deriving DecidableEq, Repr

/-- Oracle outcome of one completion-backend fetch from the loop body:
either the fetch/parse throws (transport fault, or the thrown
`DeepSeek API error <status>` on a non-ok response) carrying the thrown
message, or it succeeds with `choices[0].message`, split into `content`
and `tool_calls`. -/
inductive CompletionResult where
  | failure (msg : String)
  | success (content : Option JsVal) (tool_calls : List ToolCall)
deriving DecidableEq, Repr

/-- Oracle outcome of one data-access-backend fetch inside `callSqlApi`. -/
inductive SqlApiResponse where
  | ok (body : String)
  | httpError (status : Nat)
  | fetchError (msg : String)
deriving DecidableEq, Repr

/-- The two data-access endpoints `callSqlApi` can resolve
(`/api/sql/query` and `/api/sql/mutate`). -/
inductive Endpoint where
  | read
  | write
deriving DecidableEq, Repr

/-- Value returned by `callSqlApi`: either the backend's JSON payload
(kept as its JSON text), or an `{error: ...}` object with the given
message. -/
inductive SqlResult where
  | payload (body : String)
  | errorResult (msg : String)
deriving DecidableEq, Repr

/-- Whether `pat` is a prefix of `l` (character lists). -/
def charsHavePrefix : List Char → List Char → Bool
  | [], _ => true
  | _ :: _, [] => false
  | p :: ps, c :: cs => p == c && charsHavePrefix ps cs

/-- Whether `pat` occurs as a contiguous substring of `l`. -/
def charsContain (pat : List Char) : List Char → Bool
  | [] => charsHavePrefix pat []
  | c :: cs => charsHavePrefix pat (c :: cs) || charsContain pat cs

/-- JS `s.includes(pat)`. -/
def containsSubstr (s pat : String) : Bool :=
  charsContain pat.toList s.toList

/-- JS `s.toUpperCase()` (ASCII case map; every keyword the source
compares against is ASCII). -/
def jsToUpper (s : String) : String := String.mk (s.toList.map Char.toUpper)

/-- The endpoint `callSqlApi` resolves for a query, if any: `SELECT`
(checked first) routes to the read endpoint, else any of
`INSERT`/`UPDATE`/`DELETE` routes to the write endpoint
(src/index.js lines 20-32). -/
def classifyQuery (query : String) : Option Endpoint :=
  let upperQuery := jsToUpper query
  if containsSubstr upperQuery ("SELECT") then some .read
  else if containsSubstr upperQuery ("INSERT") || containsSubstr upperQuery ("UPDATE")
      || containsSubstr upperQuery ("DELETE") then some .write
  else none

/-- Result of one `callSqlApi` run: the returned value, the endpoint
actually fetched (`none` when classification failed and no fetch was
made), and the unconsumed backend oracle. -/
structure SqlApiCall where
  result : SqlResult
  endpoint : Option Endpoint
  rest : List SqlApiResponse
deriving DecidableEq, Repr

/-- Model of `callSqlApi` (src/index.js lines 19-51): classify, fetch the
resolved endpoint, and fold every failure into an `{error: ...}` value
rather than a thrown fault.  An exhausted oracle behaves as a transport
fault. -/
def callSqlApi (query : String) (sqlRs : List SqlApiResponse) : SqlApiCall :=
  match classifyQuery query with
  | none => { result := .errorResult ("Invalid query type"), endpoint := none, rest := sqlRs }
  | some ep =>
    match sqlRs.headD (.fetchError ("fetch failed")) with
    | .ok body => { result := .payload body, endpoint := some ep, rest := sqlRs.tail }
    | .httpError status =>
      { result := .errorResult ("API call error: HTTP error " ++ toString status)
        endpoint := some ep, rest := sqlRs.tail }
    | .fetchError msg =>
      { result := .errorResult ("API call error: " ++ msg)
        endpoint := some ep, rest := sqlRs.tail }

/-- JSON.stringify of a `callSqlApi` result, as stored in a tool message's
`content` (payloads are kept as their JSON text; escaping of quotes inside
error messages is not modelled — no message here contains one). -/
def SqlResult.stringify : SqlResult → String
  | .payload body => body
  | .errorResult msg => "\x7b\"error\":\"" ++ msg ++ "\"\x7d"

/-- An outbound websocket frame (exactly one field populated). -/
inductive OutFrame where
  | progress (v : JsVal)
  | response (v : Option JsVal)
  | error (s : String)
deriving DecidableEq, Repr

/-- Whether a frame is a `progress` frame. -/
def OutFrame.isProgress : OutFrame → Bool
  | .progress _ => true
  | _ => false

/-- Fallback progress description for a tool call (src/index.js
lines 177-181). -/
def defaultDescription (functionName : String) : String :=
  if functionName == "run_sql_query" then "Querying data..." else "Updating data..."

/-- The progress description `messageResponse.content || (...)`. -/
def describe (content : Option JsVal) (functionName : String) : JsVal :=
  match content with
  | some c => if c.truthy then c else .vStr (defaultDescription functionName)
  | none => .vStr (defaultDescription functionName)

/-- How a tool-call batch (the `for` loop over `tool_calls`) ended:
ran to completion, was abandoned by a `break` on a rejected call, or a JS
`TypeError` escaped (a truthy non-string `query` reaching
`query.toUpperCase()`), to be caught by the `while` body's catch. -/
inductive BatchOutcome where
  | completed
  | aborted
  | thrown (msg : String)
deriving DecidableEq, Repr

/-- The message JS throws for `query.toUpperCase()` on a non-string. -/
def typeErrorMsg : String := "query.toUpperCase is not a function"

/-- Result of processing one tool-call batch: tool messages pushed (in
order), frames sent (in order), backend fetches made, unconsumed SQL
oracle, and how the batch ended. -/
structure BatchResult where
  msgs : List Message
  frames : List OutFrame
  sqlCalls : List (Endpoint × String)
  sqlRemaining : List SqlApiResponse
  outcome : BatchOutcome
deriving DecidableEq, Repr

/-- One successfully dispatched tool call's message. -/
def toolMessage (callId : String) (result : SqlResult) : Message :=
  { role := "tool", content := some (.vStr result.stringify), tool_call_id := some callId }

/-- Model of the `for (const toolCall of messageResponse.tool_calls)` loop
(src/index.js lines 157-231): per call, parse arguments, require a truthy
`query`, send the progress description, enforce the tool-name policy,
dispatch via `callSqlApi` and push a tool message; any rejection sends an
error frame and breaks out of the batch. -/
def processToolCalls (content : Option JsVal) :
    List ToolCall → List SqlApiResponse → BatchResult
  | [], sqlRs =>
    { msgs := [], frames := [], sqlCalls := [], sqlRemaining := sqlRs, outcome := .completed }
  | toolCall :: rest, sqlRs =>
    let functionName := toolCall.function.name
    match toolCall.function.arguments with
    | .malformed =>
      { msgs := [], frames := [.error ("Invalid tool call arguments.")]
        sqlCalls := [], sqlRemaining := sqlRs, outcome := .aborted }
    | .parsed queryVal =>
      if !jsTruthy queryVal then
        { msgs := [], frames := [.error ("Missing query parameter.")]
          sqlCalls := [], sqlRemaining := sqlRs, outcome := .aborted }
      else
        let progressFrame := OutFrame.progress (describe content functionName)
        if functionName == "run_sql_query" then
          match queryVal with
          | some (.vStr query) =>
            if !containsSubstr (jsToUpper query) ("SELECT") then
              { msgs := [], frames := [progressFrame, .error ("run_sql_query is only for SELECT queries.")]
                sqlCalls := [], sqlRemaining := sqlRs, outcome := .aborted }
            else
              let call := callSqlApi query sqlRs
              let restResult := processToolCalls content rest call.rest
              { msgs := toolMessage toolCall.id call.result :: restResult.msgs
                frames := progressFrame :: restResult.frames
                sqlCalls := (call.endpoint.map (fun ep => (ep, query))).toList ++ restResult.sqlCalls
                sqlRemaining := restResult.sqlRemaining
                outcome := restResult.outcome }
          | _ =>
            { msgs := [], frames := [progressFrame], sqlCalls := []
              sqlRemaining := sqlRs, outcome := .thrown typeErrorMsg }
        else if functionName == "run_sql_mutation" then
          match queryVal with
          | some (.vStr query) =>
            if !(containsSubstr (jsToUpper query) ("INSERT") || containsSubstr (jsToUpper query) ("UPDATE")
                || containsSubstr (jsToUpper query) ("DELETE")) then
              { msgs := [], frames := [progressFrame, .error ("run_sql_mutation is only for INSERT, UPDATE, DELETE queries.")]
                sqlCalls := [], sqlRemaining := sqlRs, outcome := .aborted }
            else
              let call := callSqlApi query sqlRs
              let restResult := processToolCalls content rest call.rest
              { msgs := toolMessage toolCall.id call.result :: restResult.msgs
                frames := progressFrame :: restResult.frames
                sqlCalls := (call.endpoint.map (fun ep => (ep, query))).toList ++ restResult.sqlCalls
                sqlRemaining := restResult.sqlRemaining
                outcome := restResult.outcome }
          | _ =>
            { msgs := [], frames := [progressFrame], sqlCalls := []
              sqlRemaining := sqlRs, outcome := .thrown typeErrorMsg }
        else
          { msgs := [], frames := [progressFrame, .error ("Unknown function: " ++ functionName)]
            sqlCalls := [], sqlRemaining := sqlRs, outcome := .aborted }

/-- How the `while (iteration < maxIterations)` loop ended: a terminal
no-tool-call response (`break` after the response frame), the `while`
body's catch (`break` after a `DeepSeek API error: ...` frame), or the
loop condition turning false (iteration reached the ceiling). -/
inductive LoopExit where
  | terminal
  | errored
  | exhausted
deriving DecidableEq, Repr

/-- Result of running the orchestration loop: final `messages` history,
frames sent (in order), number of completion-backend round-trips issued,
data-access fetches made, how the loop ended, and the unconsumed
oracles. -/
structure LoopResult where
  history : List Message
  frames : List OutFrame
  completionCalls : Nat
  sqlCalls : List (Endpoint × String)
  exit : LoopExit
  compsRemaining : List CompletionResult
  sqlRemaining : List SqlApiResponse
deriving DecidableEq, Repr

/-- The assistant message pushed for a successful completion response. -/
def assistantMessage (content : Option JsVal) (tool_calls : List ToolCall) : Message :=
  { role := "assistant", content := content, tool_calls := tool_calls }

/-- `maxIterations` in the source (src/index.js line 124). -/
def maxIterations : Nat := 10

/-- Model of the `while (iteration < maxIterations)` loop (src/index.js
lines 127-240), structurally recursive on the remaining iteration budget
`fuel` (`maxIterations - iteration`).  Each pass consumes one completion
oracle entry (an exhausted oracle behaves as a transport fault); a
failure is the body's catch: error frame and `break`; a success pushes
the assistant message, then either sends the terminal response frame and
breaks (no tool calls), or runs the tool-call batch; a thrown batch is
caught by the body's catch (error frame, `break`, no increment); otherwise
`iteration++` and the loop continues. -/
def runLoop : Nat → List Message → List CompletionResult → List SqlApiResponse → LoopResult
  | 0, messages, comps, sqlRs =>
    { history := messages, frames := [], completionCalls := 0, sqlCalls := []
      exit := .exhausted, compsRemaining := comps, sqlRemaining := sqlRs }
  | fuel + 1, messages, comps, sqlRs =>
    match comps.headD (.failure ("fetch failed")) with
    | .failure msg =>
      { history := messages, frames := [.error ("DeepSeek API error: " ++ msg)]
        completionCalls := 1, sqlCalls := [], exit := .errored
        compsRemaining := comps.tail, sqlRemaining := sqlRs }
    | .success content tool_calls =>
      let messages1 := messages ++ [assistantMessage content tool_calls]
      if tool_calls.isEmpty then
        { history := messages1, frames := [.response content], completionCalls := 1
          sqlCalls := [], exit := .terminal
          compsRemaining := comps.tail, sqlRemaining := sqlRs }
      else
        let batch := processToolCalls content tool_calls sqlRs
        let messages2 := messages1 ++ batch.msgs
        match batch.outcome with
        | .thrown msg =>
          { history := messages2
            frames := batch.frames ++ [.error ("DeepSeek API error: " ++ msg)]
            completionCalls := 1, sqlCalls := batch.sqlCalls, exit := .errored
            compsRemaining := comps.tail, sqlRemaining := batch.sqlRemaining }
        | _ =>
          let restRun := runLoop fuel messages2 comps.tail batch.sqlRemaining
          { history := restRun.history
            frames := batch.frames ++ restRun.frames
            completionCalls := 1 + restRun.completionCalls
            sqlCalls := batch.sqlCalls ++ restRun.sqlCalls
            exit := restRun.exit
            compsRemaining := restRun.compsRemaining
            sqlRemaining := restRun.sqlRemaining }

/-- An inbound websocket frame, abstracted by its `JSON.parse` outcome:
either the parse throws (with the thrown message), or it yields a value
whose `message` field is absent or some JS value. -/
inductive InFrame where
  | notJson (errMsg : String)
  | json (message : Option JsVal)
deriving DecidableEq, Repr

/-- Observable result of the `message` event handler on one session:
final history, final busy (`processing`) flag, frames sent (in order),
completion round-trips issued, data-access fetches made, and how the
loop ended (`none` when no loop ran). -/
structure HandlerResult where
  history : List Message
  busy : Bool
  frames : List OutFrame
  completionCalls : Nat
  sqlCalls : List (Endpoint × String)
  exit : Option LoopExit
deriving DecidableEq, Repr

/-- Model of the `message` event handler (src/index.js lines 98-255):
given the session's history and busy flag, the inbound frame and the
two backend oracles.  An unparseable frame hits the outer catch (generic
`Error: ...` frame, busy forced to false).  A falsy `message` or a busy
session is rejected without touching the history.  Otherwise: set busy,
push the user message, echo it as a progress frame, run the loop, send
the max-iterations error frame when the ceiling was reached, and clear
busy. -/
def handleMessage (hist : List Message) (busy : Bool) (frame : InFrame)
    (comps : List CompletionResult) (sqlRs : List SqlApiResponse) : HandlerResult :=
  match frame with
  | .notJson errMsg =>
    { history := hist, busy := false, frames := [.error ("Error: " ++ errMsg)]
      completionCalls := 0, sqlCalls := [], exit := none }
  | .json message =>
    if !jsTruthy message then
      { history := hist, busy := busy, frames := [.error ("No message content provided.")]
        completionCalls := 0, sqlCalls := [], exit := none }
    else if busy then
      { history := hist, busy := busy
        frames := [.error ("Processing previous message, please wait.")]
        completionCalls := 0, sqlCalls := [], exit := none }
    else
      let userText := (message.getD .vNull).asJsString
      let messages := hist ++ [{ role := "user", content := message : Message }]
      let run := runLoop maxIterations messages comps sqlRs
      let maxFrames : List OutFrame :=
        if run.exit == .exhausted then [.error ("Reached maximum function call limit.")] else []
      { history := run.history, busy := false
        frames := .progress (.vStr ("You: " ++ userText)) :: (run.frames ++ maxFrames)
        completionCalls := run.completionCalls
        sqlCalls := run.sqlCalls
        exit := some run.exit }

/-- Checker for the tool-linkage history invariant: scanning left to
right, `allowed` holds the tool-call ids of the nearest preceding
assistant message with only tool messages after it; every tool message's
`tool_call_id` must be one of them.  A non-assistant, non-tool message
clears `allowed`. -/
def checkToolLinks : List Message → List String → Bool
  | [], _ => true
  | m :: rest, allowed =>
    if m.role == "tool" then
      (match m.tool_call_id with
        | some callId => allowed.contains callId
        | none => false)
      && checkToolLinks rest allowed
    else if m.role == "assistant" then
      checkToolLinks rest (m.tool_calls.map (fun tc => tc.id))
    else
      checkToolLinks rest []

/-- The `allowed` set `checkToolLinks` is in after scanning a list. -/
def linkState : List Message → List String → List String
  | [], allowed => allowed
  | m :: rest, allowed =>
    if m.role == "tool" then linkState rest allowed
    else if m.role == "assistant" then linkState rest (m.tool_calls.map (fun tc => tc.id))
    else linkState rest []

/-- The tool-linkage invariant on a whole history: every tool message's
`tool_call_id` names a tool call of the nearest preceding assistant
message, with only that batch's tool messages between the two. -/
def ToolInvariant (hist : List Message) : Prop :=
  checkToolLinks hist [] = true

instance (hist : List Message) : Decidable (ToolInvariant hist) :=
  inferInstanceAs (Decidable (checkToolLinks hist [] = true))

theorem runLoop_completionCalls_le :
    ∀ (fuel : Nat) (messages : List Message) (comps : List CompletionResult)
      (sqlRs : List SqlApiResponse),
      (runLoop fuel messages comps sqlRs).completionCalls ≤ fuel := by
  intro fuel
  induction fuel with
  | zero => intro m c s; simp [runLoop]
  | succ n ih =>
    intro m c s
    simp only [runLoop]
    split
    · simp
    · split
      · simp
      · split
        · simp
        · simp only
          rw [Nat.add_comm 1]
          exact Nat.succ_le_succ (ih _ _ _)

theorem runLoop_exhausted_calls :
    ∀ (fuel : Nat) (messages : List Message) (comps : List CompletionResult)
      (sqlRs : List SqlApiResponse),
      (runLoop fuel messages comps sqlRs).exit = .exhausted →
      (runLoop fuel messages comps sqlRs).completionCalls = fuel := by
  intro fuel
  induction fuel with
  | zero => intro m c s _; simp [runLoop]
  | succ n ih =>
    intro m c s h
    rcases c with _ | ⟨comp, ctail⟩
    · simp [runLoop] at h
    · rcases comp with msg | ⟨content, tcs⟩
      · simp [runLoop] at h
      · by_cases he : tcs.isEmpty = true
        · simp [runLoop, he] at h
        · rcases ho : (processToolCalls content tcs s).outcome with _ | _ | msg
          · simp only [runLoop, List.headD_cons, List.tail_cons, if_neg he, ho] at h ⊢
            have h2 := ih _ _ _ h
            omega
          · simp only [runLoop, List.headD_cons, List.tail_cons, if_neg he, ho] at h ⊢
            have h2 := ih _ _ _ h
            omega
          · simp [runLoop, he, ho] at h

theorem runLoop_calls_pos :
    ∀ (fuel : Nat) (messages : List Message) (comps : List CompletionResult)
      (sqlRs : List SqlApiResponse), 0 < fuel →
      1 ≤ (runLoop fuel messages comps sqlRs).completionCalls := by
  intro fuel m c s h
  match fuel, h with
  | n + 1, _ =>
    simp only [runLoop]
    split
    · simp
    · split
      · simp
      · split
        · simp
        · simp

/-- C2: an inbound message frame arriving while the session is busy
yields exactly the busy-error frame and leaves history, busy flag and
backends untouched. -/
theorem c2_busy_guard (hist : List Message) (s : String) (comps : List CompletionResult)
    (sqlRs : List SqlApiResponse) (h : s ≠ "") :
    handleMessage hist true (.json (some (.vStr s))) comps sqlRs =
      { history := hist, busy := true
        frames := [.error ("Processing previous message, please wait.")]
        completionCalls := 0, sqlCalls := [], exit := none } := by
  simp [handleMessage, jsTruthy, JsVal.truthy, h]

theorem c2_busy_guard_witness :
    handleMessage [] true (.json (some (.vStr "hello"))) [] [] =
      { history := [], busy := true
        frames := [.error ("Processing previous message, please wait.")]
        completionCalls := 0, sqlCalls := [], exit := none } :=
  c2_busy_guard [] ("hello") [] [] (by decide)

/-- C10: a JSON frame whose `message` field is falsy (empty string, null,
0, false) is answered with the no-content error and nothing else
happens. -/
theorem c10_falsy_message_guard (hist : List Message) (busy : Bool)
    (comps : List CompletionResult) (sqlRs : List SqlApiResponse) (v : JsVal)
    (h : v.truthy = false) :
    handleMessage hist busy (.json (some v)) comps sqlRs =
      { history := hist, busy := busy
        frames := [.error ("No message content provided.")]
        completionCalls := 0, sqlCalls := [], exit := none } := by
  simp [handleMessage, jsTruthy, h]

theorem c10_falsy_message_guard_witness :
    handleMessage [] false (.json (some (.vStr ""))) [] [] =
      { history := [], busy := false
        frames := [.error ("No message content provided.")]
        completionCalls := 0, sqlCalls := [], exit := none } ∧
    handleMessage [] false (.json (some (.vNum 0))) [] [] =
      { history := [], busy := false
        frames := [.error ("No message content provided.")]
        completionCalls := 0, sqlCalls := [], exit := none } :=
  ⟨c10_falsy_message_guard [] false [] [] (.vStr "") (by decide),
   c10_falsy_message_guard [] false [] [] (.vNum 0) (by decide)⟩

/-- C5 counterexample: the JSON frame whose `message` is the (truthy,
non-string) number 42 is not answered with the no-content error; the
handler appends it as a user message and starts the loop. -/
theorem c5_counterexample :
    (handleMessage [] false (.json (some (.vNum 42))) [] []).frames ≠
        [.error ("No message content provided.")] ∧
    (handleMessage [] false (.json (some (.vNum 42))) [] []).history ≠ [] ∧
    (handleMessage [] false (.json (some (.vNum 42))) [] []).completionCalls ≠ 0 := by
  decide

/-- C5 amended: a JSON frame with a falsy or absent `message` gets the
no-content error with state untouched, while a frame that fails JSON
parsing gets a generic `Error: ...` frame with the busy flag forced to
false; truthy non-string `message` values are processed like messages. -/
theorem c5_malformed_frame_behavior (hist : List Message) (busy : Bool)
    (comps : List CompletionResult) (sqlRs : List SqlApiResponse)
    (m : Option JsVal) (e : String) (h : jsTruthy m = false) :
    handleMessage hist busy (.json m) comps sqlRs =
      { history := hist, busy := busy
        frames := [.error ("No message content provided.")]
        completionCalls := 0, sqlCalls := [], exit := none } ∧
    handleMessage hist busy (.notJson e) comps sqlRs =
      { history := hist, busy := false
        frames := [.error ("Error: " ++ e)]
        completionCalls := 0, sqlCalls := [], exit := none } := by
  constructor
  · simp [handleMessage, h]
  · simp [handleMessage]

theorem c5_malformed_frame_behavior_witness :
    handleMessage [] false (.json none) [] [] =
      { history := [], busy := false
        frames := [.error ("No message content provided.")]
        completionCalls := 0, sqlCalls := [], exit := none } ∧
    handleMessage [] false (.notJson ("Unexpected token")) [] [] =
      { history := [], busy := false
        frames := [.error ("Error: Unexpected token")]
        completionCalls := 0, sqlCalls := [], exit := none } :=
  ⟨(c5_malformed_frame_behavior [] false [] [] none ("Unexpected token") (by decide)).1,
   (c5_malformed_frame_behavior [] false [] [] none ("Unexpected token") (by decide)).2⟩

/-- C7: a failed completion call (thrown transport fault or non-ok
status) ends the loop at once — one error frame, no further round-trips
or tool dispatches at that point — and every loop run returns the busy
flag to false. -/
theorem c7_backend_error_terminates (messages : List Message) (fuel : Nat) (emsg : String)
    (comps' : List CompletionResult) (sqlRs : List SqlApiResponse)
    (hist : List Message) (m : JsVal) (comps : List CompletionResult)
    (hm : m.truthy = true) :
    runLoop (fuel + 1) messages (.failure emsg :: comps') sqlRs =
      { history := messages, frames := [.error ("DeepSeek API error: " ++ emsg)]
        completionCalls := 1, sqlCalls := [], exit := .errored
        compsRemaining := comps', sqlRemaining := sqlRs } ∧
    (handleMessage hist false (.json (some m)) comps sqlRs).busy = false := by
  constructor
  · simp [runLoop]
  · simp [handleMessage, jsTruthy, hm]

theorem c7_backend_error_terminates_witness :
    runLoop 10 [] [.failure ("DeepSeek API error 500")] [] =
      { history := [], frames := [.error ("DeepSeek API error: DeepSeek API error 500")]
        completionCalls := 1, sqlCalls := [], exit := .errored
        compsRemaining := [], sqlRemaining := [] } ∧
    (handleMessage [] false (.json (some (.vStr "hi"))) [.failure ("x")] []).busy = false :=
  ⟨(c7_backend_error_terminates [] 9 ("DeepSeek API error 500") [] [] [] (.vStr "hi") [.failure ("x")] (by decide)).1,
   (c7_backend_error_terminates [] 9 ("DeepSeek API error 500") [] [] [] (.vStr "hi") [.failure ("x")] (by decide)).2⟩

/-- C3 counterexample: a query containing both `SELECT` and `INSERT` is
routed to the read endpoint, not the write endpoint, because `SELECT` is
tested first. -/
theorem c3_counterexample :
    containsSubstr (jsToUpper ("SELECT INSERT")) ("INSERT") = true ∧
    (callSqlApi ("SELECT INSERT") []).endpoint = some .read ∧
    (some Endpoint.read ≠ some Endpoint.write) := by
  decide

/-- C3 amended: `SELECT` (and none of the write keywords) routes to the
read endpoint; a write keyword routes to the write endpoint only when
`SELECT` is absent; no keyword at all makes `callSqlApi` return
`{error: "Invalid query type"}` without any fetch. -/
theorem c3_query_router_classification (q : String) (rs : List SqlApiResponse) :
    (containsSubstr (jsToUpper q) ("SELECT") = true →
      containsSubstr (jsToUpper q) ("INSERT") = false →
      containsSubstr (jsToUpper q) ("UPDATE") = false →
      containsSubstr (jsToUpper q) ("DELETE") = false →
        classifyQuery q = some .read ∧ (callSqlApi q rs).endpoint = some .read) ∧
    ((containsSubstr (jsToUpper q) ("INSERT") = true ∨ containsSubstr (jsToUpper q) ("UPDATE") = true ∨
        containsSubstr (jsToUpper q) ("DELETE") = true) →
      containsSubstr (jsToUpper q) ("SELECT") = false →
        classifyQuery q = some .write ∧ (callSqlApi q rs).endpoint = some .write) ∧
    (containsSubstr (jsToUpper q) ("SELECT") = false →
      containsSubstr (jsToUpper q) ("INSERT") = false →
      containsSubstr (jsToUpper q) ("UPDATE") = false →
      containsSubstr (jsToUpper q) ("DELETE") = false →
        callSqlApi q rs =
          { result := .errorResult ("Invalid query type"), endpoint := none, rest := rs }) := by
  refine ⟨?_, ?_, ?_⟩
  · intro hS _ _ _
    have hc : classifyQuery q = some .read := by simp [classifyQuery, hS]
    exact ⟨hc, by simp [callSqlApi, hc]; split <;> simp⟩
  · intro hW hS
    have hc : classifyQuery q = some .write := by
      rcases hW with h | h | h <;> simp [classifyQuery, hS, h]
    exact ⟨hc, by simp [callSqlApi, hc]; split <;> simp⟩
  · intro hS hI hU hD
    have hc : classifyQuery q = none := by simp [classifyQuery, hS, hI, hU, hD]
    simp [callSqlApi, hc]

theorem c3_query_router_classification_witness :
    classifyQuery ("select * from packages") = some .read ∧
    classifyQuery ("insert into t values (1)") = some .write ∧
    callSqlApi ("drop table t") [] =
      { result := .errorResult ("Invalid query type"), endpoint := none, rest := [] } :=
  ⟨((c3_query_router_classification ("select * from packages") []).1
      (by decide) (by decide) (by decide) (by decide)).1,
   ((c3_query_router_classification ("insert into t values (1)") []).2.1
      (Or.inl (by decide)) (by decide)).1,
   (c3_query_router_classification ("drop table t") []).2.2
      (by decide) (by decide) (by decide) (by decide)⟩

/-- C4: a `run_sql_query` tool call whose query lacks `SELECT` is
rejected with the policy error frame and no backend fetch, and a
`run_sql_mutation` call whose query lacks all of
`INSERT`/`UPDATE`/`DELETE` is rejected symmetrically; in both cases no
tool message is appended and the batch is abandoned. -/
theorem c4_tool_policy (content : Option JsVal) (callId : String) (rest : List ToolCall)
    (sqlRs : List SqlApiResponse) (q1 q2 : String)
    (h1 : q1 ≠ "") (h2 : containsSubstr (jsToUpper q1) ("SELECT") = false)
    (h3 : q2 ≠ "") (h4 : containsSubstr (jsToUpper q2) ("INSERT") = false)
    (h5 : containsSubstr (jsToUpper q2) ("UPDATE") = false)
    (h6 : containsSubstr (jsToUpper q2) ("DELETE") = false) :
    processToolCalls content
        ({ id := callId, function := { name := "run_sql_query", arguments := .parsed (some (.vStr q1)) } } :: rest) sqlRs =
      { msgs := [], frames := [.progress (describe content ("run_sql_query")),
          .error ("run_sql_query is only for SELECT queries.")]
        sqlCalls := [], sqlRemaining := sqlRs, outcome := .aborted } ∧
    processToolCalls content
        ({ id := callId, function := { name := "run_sql_mutation", arguments := .parsed (some (.vStr q2)) } } :: rest) sqlRs =
      { msgs := [], frames := [.progress (describe content ("run_sql_mutation")),
          .error ("run_sql_mutation is only for INSERT, UPDATE, DELETE queries.")]
        sqlCalls := [], sqlRemaining := sqlRs, outcome := .aborted } := by
  constructor
  · simp [processToolCalls, jsTruthy, JsVal.truthy, h1, h2]
  · simp [processToolCalls, jsTruthy, JsVal.truthy, h3, h4, h5, h6]

theorem c4_tool_policy_witness :
    processToolCalls none
        [{ id := "c1", function := { name := "run_sql_query", arguments := .parsed (some (.vStr "insert into t")) } }] [] =
      { msgs := [], frames := [.progress (describe none ("run_sql_query")),
          .error ("run_sql_query is only for SELECT queries.")]
        sqlCalls := [], sqlRemaining := [], outcome := .aborted } ∧
    processToolCalls none
        [{ id := "c1", function := { name := "run_sql_mutation", arguments := .parsed (some (.vStr "select * from t")) } }] [] =
      { msgs := [], frames := [.progress (describe none ("run_sql_mutation")),
          .error ("run_sql_mutation is only for INSERT, UPDATE, DELETE queries.")]
        sqlCalls := [], sqlRemaining := [], outcome := .aborted } :=
  ⟨(c4_tool_policy none ("c1") [] [] ("insert into t") ("select * from t")
      (by decide) (by decide) (by decide) (by decide) (by decide) (by decide)).1,
   (c4_tool_policy none ("c1") [] [] ("insert into t") ("select * from t")
      (by decide) (by decide) (by decide) (by decide) (by decide) (by decide)).2⟩

/-- C6: a tool call with unparseable JSON arguments sends the
invalid-arguments error frame and abandons the whole remaining batch (no
tool message, no backend fetch), yet the loop advances: the assistant
message stays in history, the iteration is counted, and when the ceiling
is not yet reached the next completion round-trip is still issued. -/
theorem c6_invalid_arguments_batch_abort (content : Option JsVal) (tc : ToolCall)
    (rest : List ToolCall) (messages : List Message) (fuel : Nat)
    (comps' : List CompletionResult) (sqlRs : List SqlApiResponse)
    (harg : tc.function.arguments = .malformed) :
    processToolCalls content (tc :: rest) sqlRs =
      { msgs := [], frames := [.error ("Invalid tool call arguments.")]
        sqlCalls := [], sqlRemaining := sqlRs, outcome := .aborted } ∧
    runLoop (fuel + 1) messages (.success content (tc :: rest) :: comps') sqlRs =
      { history := (runLoop fuel (messages ++ [assistantMessage content (tc :: rest)]) comps' sqlRs).history
        frames := .error ("Invalid tool call arguments.") ::
          (runLoop fuel (messages ++ [assistantMessage content (tc :: rest)]) comps' sqlRs).frames
        completionCalls :=
          1 + (runLoop fuel (messages ++ [assistantMessage content (tc :: rest)]) comps' sqlRs).completionCalls
        sqlCalls := (runLoop fuel (messages ++ [assistantMessage content (tc :: rest)]) comps' sqlRs).sqlCalls
        exit := (runLoop fuel (messages ++ [assistantMessage content (tc :: rest)]) comps' sqlRs).exit
        compsRemaining :=
          (runLoop fuel (messages ++ [assistantMessage content (tc :: rest)]) comps' sqlRs).compsRemaining
        sqlRemaining :=
          (runLoop fuel (messages ++ [assistantMessage content (tc :: rest)]) comps' sqlRs).sqlRemaining } ∧
    (0 < fuel →
      1 ≤ (runLoop fuel (messages ++ [assistantMessage content (tc :: rest)]) comps' sqlRs).completionCalls) := by
  rcases tc with ⟨cid, ⟨fname, args⟩⟩
  simp only at harg
  subst harg
  have ha : processToolCalls content
      ({ id := cid, function := { name := fname, arguments := .malformed } } :: rest) sqlRs =
      { msgs := [], frames := [.error ("Invalid tool call arguments.")]
        sqlCalls := [], sqlRemaining := sqlRs, outcome := .aborted } := by
    simp [processToolCalls]
  refine ⟨ha, ?_, fun hf => runLoop_calls_pos fuel _ _ _ hf⟩
  simp [runLoop, ha]

theorem c6_invalid_arguments_batch_abort_witness :
    processToolCalls none
        [{ id := "c1", function := { name := "run_sql_query", arguments := .malformed } }] [] =
      { msgs := [], frames := [.error ("Invalid tool call arguments.")]
        sqlCalls := [], sqlRemaining := [], outcome := .aborted } ∧
    (0 < 9 ∧
      1 ≤ (runLoop 9 [assistantMessage none
            [{ id := "c1", function := { name := "run_sql_query", arguments := .malformed } }]]
            [] []).completionCalls) :=
  ⟨(c6_invalid_arguments_batch_abort none _ [] [] 9 [] [] rfl).1,
   by decide,
   (c6_invalid_arguments_batch_abort none
      { id := "c1", function := { name := "run_sql_query", arguments := .malformed } }
      [] [] 9 [] [] rfl).2.2 (by decide)⟩

/-- Unfolding of the handler on the loop path: a truthy `message` on a
non-busy session echoes the message, runs the loop with the user message
appended, appends the max-iterations frame exactly when the loop
exhausted its budget, and clears the busy flag. -/
theorem handleMessage_run (hist : List Message) (m : Option JsVal)
    (comps : List CompletionResult) (sqlRs : List SqlApiResponse)
    (hm : jsTruthy m = true) :
    handleMessage hist false (.json m) comps sqlRs =
      { history := (runLoop maxIterations (hist ++ [{ role := "user", content := m }]) comps sqlRs).history
        busy := false
        frames := .progress (.vStr ("You: " ++ (m.getD .vNull).asJsString)) ::
          ((runLoop maxIterations (hist ++ [{ role := "user", content := m }]) comps sqlRs).frames ++
            (if (runLoop maxIterations (hist ++ [{ role := "user", content := m }]) comps sqlRs).exit
                == .exhausted
              then [.error ("Reached maximum function call limit.")] else []))
        completionCalls :=
          (runLoop maxIterations (hist ++ [{ role := "user", content := m }]) comps sqlRs).completionCalls
        sqlCalls := (runLoop maxIterations (hist ++ [{ role := "user", content := m }]) comps sqlRs).sqlCalls
        exit := some (runLoop maxIterations (hist ++ [{ role := "user", content := m }]) comps sqlRs).exit } := by
  simp [handleMessage, hm]

/-- C1: the handler never issues more than ten completion round-trips for
one inbound message, and when the loop exhausts its budget (the tenth
response still carried tool calls) exactly ten were issued, the client
gets the max-iterations error frame as the last frame, and the busy flag
is back to false. -/
theorem c1_iteration_ceiling (hist : List Message) (busy : Bool) (frame : InFrame)
    (comps : List CompletionResult) (sqlRs : List SqlApiResponse) :
    (handleMessage hist busy frame comps sqlRs).completionCalls ≤ 10 ∧
    ((handleMessage hist busy frame comps sqlRs).exit = some .exhausted →
      (handleMessage hist busy frame comps sqlRs).completionCalls = 10 ∧
      (handleMessage hist busy frame comps sqlRs).busy = false ∧
      ∃ pre, (handleMessage hist busy frame comps sqlRs).frames =
        pre ++ [.error ("Reached maximum function call limit.")]) := by
  rcases frame with e | m
  · exact ⟨by simp [handleMessage], by intro h; simp [handleMessage] at h⟩
  · by_cases hm : jsTruthy m = true
    · rcases busy with _ | _
      · rw [handleMessage_run _ _ _ _ hm]
        refine ⟨runLoop_completionCalls_le 10 _ _ _, ?_⟩
        intro h
        simp only [Option.some.injEq] at h
        refine ⟨runLoop_exhausted_calls 10 _ _ _ h, rfl, ?_⟩
        refine ⟨.progress (.vStr ("You: " ++ (m.getD .vNull).asJsString)) ::
          (runLoop maxIterations (hist ++ [{ role := "user", content := m }]) comps sqlRs).frames, ?_⟩
        simp [h]
      · exact ⟨by simp [handleMessage, hm], by intro h; simp [handleMessage, hm] at h⟩
    · have hm' : jsTruthy m = false := by simpa using hm
      exact ⟨by simp [handleMessage, hm'], by intro h; simp [handleMessage, hm'] at h⟩

theorem c1_iteration_ceiling_witness :
    (handleMessage [] false (.json (some (.vStr "go")))
        (List.replicate 10
          (.success none [{ id := "c1", function := { name := "f", arguments := .malformed } }]))
        []).exit = some .exhausted ∧
    (handleMessage [] false (.json (some (.vStr "go")))
        (List.replicate 10
          (.success none [{ id := "c1", function := { name := "f", arguments := .malformed } }]))
        []).completionCalls = 10 ∧
    (handleMessage [] false (.json (some (.vStr "go")))
        (List.replicate 10
          (.success none [{ id := "c1", function := { name := "f", arguments := .malformed } }]))
        []).busy = false := by
  refine ⟨by decide, ?_, ?_⟩
  · exact ((c1_iteration_ceiling [] false _ _ _).2 (by decide)).1
  · exact ((c1_iteration_ceiling [] false _ _ _).2 (by decide)).2.1

/-- C9 counterexample: in the nominal single-tool-call scenario the
client observes two progress frames (the `You: ...` echo of src/index.js
line 122, then the tool progress), not one, before the response frame. -/
theorem c9_counterexample :
    (handleMessage [{ role := "system", content := some (.vStr "sys") }] false
        (.json (some (.vStr "list all packages")))
        [.success none [{ id := "call_1", function := { name := "run_sql_query", arguments := .parsed (some (.vStr "SELECT * FROM packages")) } }],
         .success (some (.vStr "Here are the packages")) []]
        [.ok ("ROWS")]).frames.countP OutFrame.isProgress = 2 ∧
    ¬ (handleMessage [{ role := "system", content := some (.vStr "sys") }] false
        (.json (some (.vStr "list all packages")))
        [.success none [{ id := "call_1", function := { name := "run_sql_query", arguments := .parsed (some (.vStr "SELECT * FROM packages")) } }],
         .success (some (.vStr "Here are the packages")) []]
        [.ok ("ROWS")]).frames.countP OutFrame.isProgress = 1 := by
  decide

/-- C9 amended: in the nominal single-tool-call scenario the client
observes exactly two progress frames — the `You: ...` echo and then the
tool progress — followed by exactly one response frame. -/
theorem c9_nominal_turn_frames (hist : List Message) (umsg q ans callId body : String)
    (hu : umsg ≠ "") (hq0 : q ≠ "")
    (hq : containsSubstr (jsToUpper q) ("SELECT") = true) :
    (handleMessage hist false (.json (some (.vStr umsg)))
        [.success none [{ id := callId, function := { name := "run_sql_query", arguments := .parsed (some (.vStr q)) } }],
         .success (some (.vStr ans)) []]
        [.ok body]).frames =
      [.progress (.vStr ("You: " ++ umsg)), .progress (.vStr ("Querying data...")),
        .response (some (.vStr ans))] := by
  have hm : jsTruthy (some (.vStr umsg)) = true := by simp [jsTruthy, JsVal.truthy, hu]
  rw [handleMessage_run _ _ _ _ hm]
  have hcls : classifyQuery q = some .read := by simp [classifyQuery, hq]
  have step1 : ∀ (fuel : Nat) (M : List Message),
      (runLoop (fuel + 1 + 1) M
        [.success none [{ id := callId, function := { name := "run_sql_query", arguments := .parsed (some (.vStr q)) } }],
         .success (some (.vStr ans)) []] [.ok body]).frames =
      [.progress (.vStr ("Querying data...")), .response (some (.vStr ans))] := by
    intro fuel M
    simp [runLoop, processToolCalls, jsTruthy, JsVal.truthy, hq0, hq, callSqlApi, hcls,
      describe, defaultDescription, toolMessage]
  have step2 : ∀ (fuel : Nat) (M : List Message),
      (runLoop (fuel + 1 + 1) M
        [.success none [{ id := callId, function := { name := "run_sql_query", arguments := .parsed (some (.vStr q)) } }],
         .success (some (.vStr ans)) []] [.ok body]).exit = .terminal := by
    intro fuel M
    simp [runLoop, processToolCalls, jsTruthy, JsVal.truthy, hq0, hq, callSqlApi, hcls,
      describe, defaultDescription, toolMessage]
  have mi : maxIterations = 8 + 1 + 1 := rfl
  rw [mi, step1 8 _, step2 8 _]
  simp [JsVal.asJsString]

theorem c9_nominal_turn_frames_witness :
    (handleMessage [{ role := "system", content := some (.vStr "sys") }] false
        (.json (some (.vStr "list all packages")))
        [.success none [{ id := "call_1", function := { name := "run_sql_query", arguments := .parsed (some (.vStr "SELECT * FROM packages")) } }],
         .success (some (.vStr "Here are the packages")) []]
        [.ok ("ROWS")]).frames =
      [.progress (.vStr "You: list all packages"), .progress (.vStr "Querying data..."),
        .response (some (.vStr "Here are the packages"))] :=
  c9_nominal_turn_frames [{ role := "system", content := some (.vStr "sys") }]
    ("list all packages") ("SELECT * FROM packages") ("Here are the packages") ("call_1") ("ROWS")
    (by decide) (by decide) (by decide)

theorem checkToolLinks_append (a b : List Message) :
    ∀ s, checkToolLinks (a ++ b) s = (checkToolLinks a s && checkToolLinks b (linkState a s)) := by
  induction a with
  | nil => intro s; simp [checkToolLinks, linkState]
  | cons m rest ih =>
    intro s
    by_cases h1 : (m.role == "tool") = true
    · simp [checkToolLinks, linkState, h1, ih, Bool.and_assoc]
    · by_cases h2 : (m.role == "assistant") = true
      · simp [checkToolLinks, linkState, h1, h2, ih]
      · simp [checkToolLinks, linkState, h1, h2, ih]

theorem mem_map_id_contains (calls : List ToolCall) (tc : ToolCall) (h : tc ∈ calls) :
    (calls.map (fun c => c.id)).contains tc.id = true := by
  have hmem : tc.id ∈ calls.map (fun c => c.id) := List.mem_map.mpr ⟨tc, h, rfl⟩
  simpa using hmem

theorem processToolCalls_msgs_shape (content : Option JsVal) :
    ∀ (calls : List ToolCall) (sqlRs : List SqlApiResponse) (m : Message),
      m ∈ (processToolCalls content calls sqlRs).msgs →
      m.role = "tool" ∧ ∃ tc, tc ∈ calls ∧ m.tool_call_id = some tc.id := by
  intro calls
  induction calls with
  | nil => intro sqlRs m hm; simp [processToolCalls] at hm
  | cons tc rest ih =>
    intro sqlRs m hm
    obtain ⟨cid, ⟨fname, args⟩⟩ := tc
    rcases args with _ | qv
    · simp [processToolCalls] at hm
    · by_cases ht : jsTruthy qv = true
      · by_cases hn1 : (fname == "run_sql_query") = true
        · rcases qv with _ | v
          · simp [jsTruthy] at ht
          · rcases v with _ | b | n | str
            · simp [jsTruthy, JsVal.truthy] at ht
            · simp [processToolCalls, ht, hn1] at hm
            · simp [processToolCalls, ht, hn1] at hm
            · by_cases hsel : containsSubstr (jsToUpper str) ("SELECT") = true
              · simp only [processToolCalls, ht, hn1, hsel, Bool.not_true, Bool.false_eq_true,
                  if_false, if_true, List.mem_cons] at hm
                rcases hm with hm | hm
                · subst hm
                  exact ⟨rfl, ⟨{ id := cid, function := { name := fname, arguments := .parsed (some (.vStr str)) } },
                    List.mem_cons_self _ _, rfl⟩⟩
                · obtain ⟨hrole, tc', htc', hid⟩ := ih _ _ hm
                  exact ⟨hrole, tc', List.mem_cons_of_mem _ htc', hid⟩
              · have hsel' : containsSubstr (jsToUpper str) ("SELECT") = false := by
                  simpa using hsel
                simp [processToolCalls, ht, hn1, hsel'] at hm
        · by_cases hn2 : (fname == "run_sql_mutation") = true
          · rcases qv with _ | v
            · simp [jsTruthy] at ht
            · rcases v with _ | b | n | str
              · simp [jsTruthy, JsVal.truthy] at ht
              · simp [processToolCalls, ht, hn1, hn2] at hm
              · simp [processToolCalls, ht, hn1, hn2] at hm
              · by_cases hw : (containsSubstr (jsToUpper str) ("INSERT")
                    || containsSubstr (jsToUpper str) ("UPDATE")
                    || containsSubstr (jsToUpper str) ("DELETE")) = true
                · simp only [processToolCalls, ht, hn1, hn2, hw, Bool.not_true, Bool.false_eq_true,
                    if_false, if_true, List.mem_cons] at hm
                  rcases hm with hm | hm
                  · subst hm
                    exact ⟨rfl, ⟨{ id := cid, function := { name := fname, arguments := .parsed (some (.vStr str)) } },
                      List.mem_cons_self _ _, rfl⟩⟩
                  · obtain ⟨hrole, tc', htc', hid⟩ := ih _ _ hm
                    exact ⟨hrole, tc', List.mem_cons_of_mem _ htc', hid⟩
                · have hw' : (containsSubstr (jsToUpper str) ("INSERT")
                      || containsSubstr (jsToUpper str) ("UPDATE")
                      || containsSubstr (jsToUpper str) ("DELETE")) = false := by
                    simpa using hw
                  simp [processToolCalls, ht, hn1, hn2, hw'] at hm
          · simp [processToolCalls, ht, hn1, hn2] at hm
      · have ht' : jsTruthy qv = false := by simpa using ht
        simp [processToolCalls, ht'] at hm

theorem checkToolLinks_tools :
    ∀ (msgs : List Message) (s : List String),
      (∀ m ∈ msgs, m.role = "tool" ∧ ∃ cid, m.tool_call_id = some cid ∧ s.contains cid = true) →
      checkToolLinks msgs s = true := by
  intro msgs
  induction msgs with
  | nil => intro s _; simp [checkToolLinks]
  | cons m rest ih =>
    intro s h
    obtain ⟨hrole, cid, hid, hcont⟩ := h m (List.mem_cons_self m rest)
    have hcid : cid ∈ s := by simpa using hcont
    simp [checkToolLinks, hrole, hid, hcid,
      ih s (fun x hx => h x (List.mem_cons_of_mem m hx))]

/-- Appending an assistant message followed by its batch's tool messages
preserves the tool-linkage checker. -/
theorem checkToolLinks_step (m : List Message) (content : Option JsVal) (tcs : List ToolCall)
    (sq : List SqlApiResponse) (s : List String) (h : checkToolLinks m s = true) :
    checkToolLinks (m ++ assistantMessage content tcs :: (processToolCalls content tcs sq).msgs) s
      = true := by
  rw [checkToolLinks_append]
  have h1 : checkToolLinks (assistantMessage content tcs :: (processToolCalls content tcs sq).msgs)
      (linkState m s) = true := by
    have h2 : checkToolLinks ((processToolCalls content tcs sq).msgs)
        (tcs.map (fun c => c.id)) = true := by
      apply checkToolLinks_tools
      intro mm hmm
      obtain ⟨hrole, tc, htc, hid⟩ := processToolCalls_msgs_shape content tcs sq mm hmm
      exact ⟨hrole, tc.id, hid, mem_map_id_contains tcs tc htc⟩
    simp [checkToolLinks, assistantMessage, h2]
  simp [h, h1]

theorem runLoop_preserves_links :
    ∀ (fuel : Nat) (messages : List Message) (comps : List CompletionResult)
      (sqlRs : List SqlApiResponse) (s : List String),
      checkToolLinks messages s = true →
      checkToolLinks (runLoop fuel messages comps sqlRs).history s = true := by
  intro fuel
  induction fuel with
  | zero => intro m c sq s h; simpa [runLoop] using h
  | succ n ih =>
    intro m c sq s h
    rcases c with _ | ⟨comp, ctail⟩
    · simpa [runLoop] using h
    · rcases comp with msg | ⟨content, tcs⟩
      · simpa [runLoop] using h
      · by_cases he : tcs.isEmpty = true
        · simp only [runLoop, List.headD_cons, List.tail_cons, if_pos he]
          rw [checkToolLinks_append]
          simp [h, checkToolLinks, assistantMessage]
        · rcases ho : (processToolCalls content tcs sq).outcome with _ | _ | msg
          · simp only [runLoop, List.headD_cons, List.tail_cons, if_neg he, ho]
            exact ih _ _ _ _ (by simpa [List.append_assoc] using checkToolLinks_step m content tcs sq s h)
          · simp only [runLoop, List.headD_cons, List.tail_cons, if_neg he, ho]
            exact ih _ _ _ _ (by simpa [List.append_assoc] using checkToolLinks_step m content tcs sq s h)
          · simp only [runLoop, List.headD_cons, List.tail_cons, if_neg he, ho]
            simpa [List.append_assoc] using checkToolLinks_step m content tcs sq s h

/-- C8: the tool-linkage invariant — every tool message's `tool_call_id`
names a tool call of the nearest preceding assistant message, with only
that batch's tool messages in between — is preserved by the message
handler on every inbound frame. -/
theorem c8_tool_link_invariant (hist : List Message) (busy : Bool) (frame : InFrame)
    (comps : List CompletionResult) (sqlRs : List SqlApiResponse)
    (h : ToolInvariant hist) :
    ToolInvariant (handleMessage hist busy frame comps sqlRs).history := by
  unfold ToolInvariant at h ⊢
  rcases frame with e | m
  · simpa [handleMessage] using h
  · by_cases hm : jsTruthy m = true
    · rcases busy with _ | _
      · rw [handleMessage_run _ _ _ _ hm]
        apply runLoop_preserves_links
        rw [checkToolLinks_append]
        simp [h, checkToolLinks]
      · simpa [handleMessage, hm] using h
    · have hm' : jsTruthy m = false := by simpa using hm
      simpa [handleMessage, hm'] using h

theorem c8_tool_link_invariant_witness :
    ToolInvariant [{ role := "system", content := some (.vStr "sys") }] ∧
    ToolInvariant ((handleMessage [{ role := "system", content := some (.vStr "sys") }] false
        (.json (some (.vStr "list all packages")))
        [.success none [{ id := "call_1", function := { name := "run_sql_query", arguments := .parsed (some (.vStr "SELECT * FROM packages")) } }],
         .success (some (.vStr "done")) []]
        [.ok ("ROWS")]).history) :=
  ⟨by decide,
   c8_tool_link_invariant [{ role := "system", content := some (.vStr "sys") }] false
     (.json (some (.vStr "list all packages")))
     [.success none [{ id := "call_1", function := { name := "run_sql_query", arguments := .parsed (some (.vStr "SELECT * FROM packages")) } }],
      .success (some (.vStr "done")) []]
     [.ok ("ROWS")] (by decide)⟩
